import Mathlib

/-!
Verification of the aftonfalk MSSQL schema model, DDL/DML synthesizer and
write-mode orchestrator against its natural-language specification.

The Python sources embedded here:
  - aftonfalk/mssql/types_.py  : Path, Column, Index, Table (schema model + synthesizer)
  - aftonfalk/mssql/driver.py  : MssqlDriver (merge_ddl and the orchestration)
  - aftonfalk/models/types_.py : the older Index/Table variant (string paths)

Pure string generation is embedded as Lean functions on the same data.  The
two wall-clock reads (`pendulum.now().format("YYMMDDHHmmss")` in
`Table.__post_init__` and in `Table.table_ddl`) are made explicit parameters:
`ctok` is the construction-time timestamp, `rtok` the render-time timestamp of
one invocation.  The driver I/O boundary is embedded as a small state
(`Db`, the tables and schemas that exist) plus a trace of emitted events.
Python runtime errors raised by the orchestration code (ValueError,
TypeError, AttributeError) are embedded as `Except PyErr` results.
-/

namespace Aftonfalk

/-- Modelled from the spec: the `WriteMode` enum (APPEND | TRUNCATE_WRITE | MERGE)
from `aftonfalk/mssql/enums_.py`, a file imported by the source but absent from `src/`. -/
inductive WriteMode where
  | APPEND
  | TRUNCATE_WRITE
  | MERGE
deriving Repr, DecidableEq

/-- Modelled from the spec: the `SortDirection` enum (ASC/DESC) from the absent
`enums_.py`; `Index.to_sql` renders its `.value`. -/
inductive SortDirection where
  | ASC
  | DESC
deriving Repr, DecidableEq

/-- The `.value` attribute of a `SortDirection` member. -/
def SortDirection.value : SortDirection → String
  | .ASC => "ASC"
  | .DESC => "DESC"

/-- Modelled from the spec: the `SqlServerIndexType` enum (CLUSTERED/NONCLUSTERED)
from the absent `enums_.py`; `Index.to_sql` renders its `.name`. -/
inductive SqlServerIndexType where
  | CLUSTERED
  | NONCLUSTERED
deriving Repr, DecidableEq

/-- The `.name` attribute of a `SqlServerIndexType` member. -/
def SqlServerIndexType.name : SqlServerIndexType → String
  | .CLUSTERED => "CLUSTERED"
  | .NONCLUSTERED => "NONCLUSTERED"

/-- Source `Path` (mssql/types_.py lines 17-24): a plain dataclass with three string
fields.  The source defines no `__post_init__` and performs no validation of
the segments; construction is total. -/
structure Path where
  database : String
  schema : String
  table : String
deriving Repr, DecidableEq

/-- Source `Path.to_str` (mssql/types_.py line 23-24). -/
def Path.to_str (p : Path) : String :=
  p.database ++ "." ++ p.schema ++ "." ++ p.table

/-- The text Python produces when an f-string interpolates the *uncalled* bound
method `path.to_str` (as `Index.to_sql` does on mssql/types_.py line 54):
`repr` of a bound method of a dataclass instance. -/
def Path.to_str_bound_method_repr (p : Path) : String :=
  "<bound method Path.to_str of Path(database=\x27" ++ p.database ++
    "\x27, schema=\x27" ++ p.schema ++ "\x27, table=\x27" ++ p.table ++ "\x27)>"

/-- Source `Column` (mssql/types_.py lines 27-36). -/
structure Column where
  name : String
  data_type : String
  constraints : String := ""
  description : String := ""
  sensitive : Bool := false
deriving Repr, DecidableEq

/-- The Python `str.strip()` operation: drop whitespace from both ends.  Implemented by
structural recursion over the character list so that concrete instances
reduce inside the kernel. -/
def py_strip (s : String) : String :=
  String.mk (((s.data.dropWhile Char.isWhitespace).reverse.dropWhile
    Char.isWhitespace).reverse)

/-- Source `Column.column_definition` (mssql/types_.py line 35-36):
`f"{self.name} {self.data_type} {self.constraints}".strip()`. -/
def Column.column_definition (c : Column) : String :=
  py_strip (c.name ++ " " ++ c.data_type ++ " " ++ c.constraints)

/-- Source `Index` (mssql/types_.py lines 39-54). -/
structure Index where
  name : String
  index_type : SqlServerIndexType
  columns : List Column
  is_unique : Bool := false
  sort_direction : SortDirection := SortDirection.ASC
deriving Repr, DecidableEq

/-- Source `Index.to_sql` (mssql/types_.py lines 47-54).  Note two facts of the source,
both preserved exactly: the index name rendered into the statement is
`index_columns_snake`, derived solely from the participating column names
(never `self.name`); and the `ON` target interpolates `path.to_str` *without
calling it*, so Python renders the repr of the bound method object, not the dotted
path text. -/
def Index.to_sql (idx : Index) (path : Path) : String :=
  let unique_clause := if idx.is_unique then "UNIQUE " else ""
  let index_columns := String.intercalate ", "
    (idx.columns.map (fun col => col.name ++ " " ++ idx.sort_direction.value))
  let index_columns_snake := String.intercalate "_" (idx.columns.map (fun col => col.name))
  "CREATE " ++ unique_clause ++ idx.index_type.name ++ " INDEX " ++ index_columns_snake ++
    " ON " ++ path.to_str_bound_method_repr ++ " (" ++ index_columns ++ ");"

/-- The caller-supplied fields of the `Table` dataclass (mssql/types_.py lines
57-94), i.e. the constructor arguments with their source defaults, before
`__post_init__` runs.  `timezone` holds the value string of the enum member
("UTC" for the default `SqlServerTimeZone.UTC`). -/
structure TableConfig where
  source_path : Path
  destination_path : Path
  source_data_modified_column_name : Option String := none
  destination_data_modified_column_name : String := "data_modified"
  temp_table_schema : String := "INTERNAL"
  enforce_primary_key : Bool := false
  timezone : String := "UTC"
  write_mode : WriteMode := WriteMode.APPEND
  temp_table_path : Option Path := none
  default_columns : List Column := []
  unique_columns : List Column := []
  non_unique_columns : List Column := []
  indexes : List Index := []
deriving Repr, DecidableEq

/-- The `Table` object after `__post_init__`: the dataclass fields plus the
derived `_columns` list and the (unconditionally overwritten) `temp_table_path`. -/
structure Table where
  source_path : Path
  destination_path : Path
  source_data_modified_column_name : Option String
  destination_data_modified_column_name : String
  temp_table_schema : String
  enforce_primary_key : Bool
  timezone : String
  write_mode : WriteMode
  temp_table_path : Path
  default_columns : List Column
  unique_columns : List Column
  non_unique_columns : List Column
  indexes : List Index
  _columns : List Column
deriving Repr, DecidableEq

/-- Source `Table.create_column_list` (mssql/types_.py lines 96-98):
`non_default_columns = unique + non_unique; _columns = default + non_default_columns`. -/
def create_column_list (default_columns unique_columns non_unique_columns : List Column) :
    List Column :=
  let non_default_columns := unique_columns ++ non_unique_columns
  default_columns ++ non_default_columns

/-- Source `Table.__post_init__` (mssql/types_.py lines 107-109): computes `_columns`
via `create_column_list` and unconditionally overwrites `temp_table_path` with
`Path(destination.database, temp_table_schema, destination.table + "_" +
now().format("YYMMDDHHmmss"))`.  `ctok` is that construction-time timestamp
string, made an explicit parameter; any caller-supplied `temp_table_path` in
the config is discarded, exactly as in the source. -/
def mkTable (cfg : TableConfig) (ctok : String) : Table :=
  { source_path := cfg.source_path
    destination_path := cfg.destination_path
    source_data_modified_column_name := cfg.source_data_modified_column_name
    destination_data_modified_column_name := cfg.destination_data_modified_column_name
    temp_table_schema := cfg.temp_table_schema
    enforce_primary_key := cfg.enforce_primary_key
    timezone := cfg.timezone
    write_mode := cfg.write_mode
    temp_table_path :=
      { database := cfg.destination_path.database
        schema := cfg.temp_table_schema
        table := cfg.destination_path.table ++ "_" ++ ctok }
    default_columns := cfg.default_columns
    unique_columns := cfg.unique_columns
    non_unique_columns := cfg.non_unique_columns
    indexes := cfg.indexes
    _columns := create_column_list cfg.default_columns cfg.unique_columns cfg.non_unique_columns }

/-- Split a character list at every dot character (each dot separates two
groups, as the regex does): structural recursion, kernel-reducible. -/
def split_on_dot : List Char → List (List Char)
  | [] => [[]]
  | c :: cs =>
    let r := split_on_dot cs
    if c = '.' then [] :: r
    else
      match r with
      | [] => [[c]]
      | g :: gs => (c :: g) :: gs

/-- Source `Table.path_is_valid` (mssql/types_.py lines 100-105): `re.match` of the
anchored pattern `^[a-zA-Z0-9_]+(\.[a-zA-Z0-9_]+){2}$` against a string — the
string matches exactly when it is three nonempty ASCII-word-character groups
separated by two dots (`$` also matches just before one trailing newline,
handled by dropping it).  This helper is defined in the source but never
invoked anywhere. -/
def path_is_valid (s : String) : Bool :=
  let is_word_char : Char → Bool := fun c => c.isAlpha || c.isDigit || c = '_'
  let chars := if s.data.getLast? = some '\n' then s.data.dropLast else s.data
  match split_on_dot chars with
  | [a, b, c] =>
    !a.isEmpty && !b.isEmpty && !c.isEmpty &&
      a.all is_word_char && b.all is_word_char && c.all is_word_char
  | _ => false

/-- Source `Table.table_ddl` (mssql/types_.py lines 116-142).  `rtok` is the value of
`now().format("YYMMDDHHmmss")` evaluated *during this invocation* (line 131):
the source calls the wall clock inside `table_ddl` whenever
`enforce_primary_key` is set, it does not reuse the construction-time token. -/
def Table.table_ddl (t : Table) (path : Path) (rtok : String) : String :=
  let columns_def := t._columns.map Column.column_definition
  let indexes_sql := String.intercalate "\n" (t.indexes.map (fun index => index.to_sql path))
  let ddl_parts :=
    if t.enforce_primary_key then
      columns_def ++
        ["CONSTRAINT PK_" ++ String.intercalate "_" (t.unique_columns.map Column.name) ++
          "_" ++ rtok ++ " PRIMARY KEY (" ++
          String.intercalate ", " (t.unique_columns.map Column.name) ++ ")"]
    else columns_def
  String.intercalate "\n"
    (["CREATE TABLE " ++ path.to_str ++ " ("] ++
      [String.intercalate ",\n" (ddl_parts ++ [indexes_sql])] ++ [");"])

/-- Source `Table.insert_sql` (mssql/types_.py lines 144-147).  The method takes *no*
target-path parameter: the INSERT target is always `self.destination_path`,
and the placeholder list is `["?"] * len(self._columns)`. -/
def Table.insert_sql (t : Table) : String :=
  "INSERT INTO " ++ t.destination_path.to_str ++ " (" ++
    String.intercalate ", " (t._columns.map Column.name) ++ ") VALUES (" ++
    String.intercalate ", " (List.replicate t._columns.length "?") ++ ");"

/-! ## The older variant in aftonfalk/models/types_.py

Its `Column` is field-for-field identical to the mssql one, so it is reused;
its `Index.to_sql` takes the path as a plain string and renders it directly
(the `ON` target is the string itself, called nothing). -/

namespace Models

/-- Source `Index` (models/types_.py lines 18-33). -/
structure Index where
  name : String
  index_type : SqlServerIndexType
  columns : List Column
  is_unique : Bool := false
  sort_direction : SortDirection := SortDirection.ASC
deriving Repr, DecidableEq

/-- Source `Index.to_sql` (models/types_.py lines 26-33): same statement shape as the
mssql variant, with the string `path` interpolated directly into the `ON`
clause and the index name again derived from the column names only. -/
def Index.to_sql (idx : Index) (path : String) : String :=
  let unique_clause := if idx.is_unique then "UNIQUE " else ""
  let index_columns := String.intercalate ", "
    (idx.columns.map (fun col => col.name ++ " " ++ idx.sort_direction.value))
  let index_columns_snake := String.intercalate "_" (idx.columns.map (fun col => col.name))
  "CREATE " ++ unique_clause ++ idx.index_type.name ++ " INDEX " ++ index_columns_snake ++
    " ON " ++ path ++ " (" ++ index_columns ++ ");"

end Models

/-! ## The driver (aftonfalk/mssql/driver.py)

`merge_ddl` is pure string generation; the orchestration methods
(`create_table`, `apply_indexes`, `truncate_write`, `append`, `merge`) are
embedded as functions of an abstract database state `Db` that also return the
trace of I/O events they emit.  Executing the `CREATE TABLE` ddl that
`create_table` was handed makes the table at its `path` argument exist, and
`DROP TABLE` removes it: that engine effect is recorded in `Db`. -/

/-- Python runtime errors raised by the driver code paths. -/
inductive PyErr where
  | valueError (msg : String)
  | typeError (msg : String)
  | attributeError (msg : String)
deriving Repr, DecidableEq

/-- One I/O action at the driver boundary: the existence-check reads
(`_table_exists`, `_schema_exists`), the two cursor statements of
`create_schema_in_one_go`, a `self.execute(sql)`, and a batched
`self.write(sql, ...)`. -/
inductive Event where
  | tableCheck (p : Path)
  | schemaCheck (p : Path)
  | useDb (database : String)
  | createSchema (schema : String)
  | exec (sql : String)
  | write (sql : String)
deriving Repr, DecidableEq

/-- Is this event a batched-write call? -/
def Event.is_write : Event → Bool
  | .write _ => true
  | _ => false

deriving instance DecidableEq for Except

/-- The abstract engine state the existence checks of the driver consult: which
(database, schema) pairs and which tables currently exist. -/
structure Db where
  schemas : List (String × String)
  tables : List Path
deriving Repr, DecidableEq

/-- An engine with nothing in it. -/
def emptyDb : Db := { schemas := [], tables := [] }

/-- Source `MssqlDriver._table_exists` (driver.py lines 195-216): a read against
`sys.tables`, reported as a check event. -/
def _table_exists (db : Db) (p : Path) : Bool × List Event :=
  (db.tables.contains p, [Event.tableCheck p])

/-- Source `MssqlDriver._schema_exists` (driver.py lines 165-184). -/
def _schema_exists (db : Db) (p : Path) : Bool × List Event :=
  (db.schemas.contains (p.database, p.schema), [Event.schemaCheck p])

/-- Source `MssqlDriver.create_schema_in_one_go` (driver.py lines 124-129):
`USE <database>;` then `CREATE SCHEMA <schema>;`. -/
def create_schema_in_one_go (db : Db) (p : Path) : Db × List Event :=
  ({ db with schemas := (p.database, p.schema) :: db.schemas },
    [Event.useDb p.database, Event.createSchema p.schema])

/-- Source `MssqlDriver._create_schema` (driver.py lines 218-221): create the schema
only if it does not already exist. -/
def _create_schema (db : Db) (p : Path) : Db × List Event :=
  if (_schema_exists db p).1 then (db, [Event.schemaCheck p])
  else
    let r := create_schema_in_one_go db p
    (r.1, Event.schemaCheck p :: r.2)

/-- Source `MssqlDriver.create_table` (driver.py lines 223-238): if the table already
exists, return immediately unless `drop_first`, in which case execute
`DROP TABLE`; then ensure the schema and execute the caller-supplied ddl. -/
def create_table (db : Db) (p : Path) (ddl : String) (drop_first : Bool) : Db × List Event :=
  if (_table_exists db p).1 then
    if !drop_first then (db, [Event.tableCheck p])
    else
      let dbDropped : Db := { db with tables := db.tables.erase p }
      let r := _create_schema dbDropped p
      ({ r.1 with tables := p :: r.1.tables },
        Event.tableCheck p :: Event.exec ("DROP TABLE " ++ p.to_str ++ ";") ::
          (r.2 ++ [Event.exec ddl]))
  else
    let r := _create_schema db p
    ({ r.1 with tables := p :: r.1.tables },
      Event.tableCheck p :: (r.2 ++ [Event.exec ddl]))

set_option linter.unusedVariables false in
/-- Source `MssqlDriver.apply_indexes` (driver.py lines 240-243): iterates
`table.indexes` and calls `index.index_name(path=path)` — but the `Index`
class defines no `index_name` attribute, so the first loop iteration raises
`AttributeError`.  With an empty index list the loop body never runs and the
method returns normally having done nothing. -/
def apply_indexes (db : Db) (t : Table) (p : Path) : Except PyErr (Db × List Event) :=
  match t.indexes with
  | [] => Except.ok (db, [])
  | _ :: _ =>
    Except.error (PyErr.attributeError
      "\x27Index\x27 object has no attribute \x27index_name\x27")

/-- The `TypeError` Python raises at every orchestration write step
(driver.py lines 255, 268, 300): the call `table.insert_sql(path=...)` passes
a keyword argument that `Table.insert_sql` (which takes only `self`) does not
accept.  The argument is evaluated before `self.write` runs, so no write event
is ever emitted.  (`table.batch_size` in the same call would likewise raise
`AttributeError`, but the TypeError fires first.) -/
def insert_sql_call_error : PyErr :=
  PyErr.typeError "Table.insert_sql() got an unexpected keyword argument \x27path\x27"

/-- The `update_columns` local of `MssqlDriver.merge_ddl` (driver.py line 135):
`table.non_unique_columns + table.default_columns`. -/
def merge_update_columns (t : Table) : List Column :=
  t.non_unique_columns ++ t.default_columns

/-- The `on_conditions` local of `merge_ddl` (driver.py lines 140-143): equality over each
unique column, then the modified-column guard with `>=`. -/
def merge_on_conditions (t : Table) : String :=
  String.intercalate " AND "
      (t.unique_columns.map (fun col => "target." ++ col.name ++ " = source." ++ col.name)) ++
    " AND source." ++ t.destination_data_modified_column_name ++
    " >= target." ++ t.destination_data_modified_column_name

/-- The `update_clause` local of `merge_ddl` (driver.py lines 144-146). -/
def merge_update_clause (t : Table) : String :=
  String.intercalate ", "
    ((merge_update_columns t).map (fun col => "target." ++ col.name ++ " = source." ++ col.name))

/-- The `insert_columns` local of `merge_ddl` (driver.py line 147): the full materialized
column list `table._columns`. -/
def merge_insert_columns (t : Table) : String :=
  String.intercalate ", " (t._columns.map Column.name)

/-- The `insert_values` local of `merge_ddl` (driver.py lines 148-150). -/
def merge_insert_values (t : Table) : String :=
  String.intercalate ", " (t._columns.map (fun col => "source." ++ col.name))

/-- The f-string template of `merge_ddl` (driver.py lines 152-161), whitespace
reproduced exactly. -/
def merge_statement (dst src onc upd cols vals : String) : String :=
  "\n            MERGE INTO " ++ dst ++ " AS target\n            USING " ++ src ++
    " AS source\n            ON " ++ onc ++
    "\n            WHEN MATCHED THEN\n                UPDATE SET " ++ upd ++
    "\n            WHEN NOT MATCHED THEN\n                INSERT (" ++ cols ++
    ")\n                VALUES (" ++ vals ++ ");\n        "

/-- Source `MssqlDriver.merge_ddl` (driver.py lines 131-163): raises `ValueError` when
the unique-column list or the update-column list is empty, otherwise renders
the MERGE statement from the components above. -/
def merge_ddl (t : Table) : Except PyErr String :=
  if t.unique_columns.isEmpty || (merge_update_columns t).isEmpty then
    Except.error (PyErr.valueError "Unique columns and update columns cannot be empty.")
  else
    Except.ok (merge_statement t.destination_path.to_str t.temp_table_path.to_str
      (merge_on_conditions t) (merge_update_clause t)
      (merge_insert_columns t) (merge_insert_values t))

/-- Source `MssqlDriver.truncate_write` (driver.py lines 245-255): create the
destination with `drop_first=True`, apply indexes, then call `self.write` with
`table.insert_sql(path=path)` — which raises the TypeError above before any
write happens. -/
def truncate_write (t : Table) (rtok : String) (db : Db) :
    Except PyErr Unit × Db × List Event :=
  let r1 := create_table db t.destination_path (t.table_ddl t.destination_path rtok) true
  match apply_indexes r1.1 t t.destination_path with
  | Except.error e => (Except.error e, r1.1, r1.2)
  | Except.ok r2 => (Except.error insert_sql_call_error, r2.1, r1.2 ++ r2.2)

/-- Source `MssqlDriver.append` (driver.py lines 257-268): like `truncate_write` but
without `drop_first`. -/
def append (t : Table) (rtok : String) (db : Db) :
    Except PyErr Unit × Db × List Event :=
  let r1 := create_table db t.destination_path (t.table_ddl t.destination_path rtok) false
  match apply_indexes r1.1 t t.destination_path with
  | Except.error e => (Except.error e, r1.1, r1.2)
  | Except.ok r2 => (Except.error insert_sql_call_error, r2.1, r1.2 ++ r2.2)

/-- Source `MssqlDriver.merge` (driver.py lines 270-308): create the destination
(honouring `drop_destination_first`), apply its indexes, create the staging
table at `table.temp_table_path`, apply its indexes, then call `self.write`
with `table.insert_sql(path=table.temp_table_path)` — which raises the
TypeError above, so the subsequent `merge_ddl` execution (line 302-306) and
the staging `DROP TABLE` (line 308) are never reached. -/
def merge (t : Table) (drop_destination_first : Bool) (rtok : String) (db : Db) :
    Except PyErr Unit × Db × List Event :=
  let r1 := create_table db t.destination_path (t.table_ddl t.destination_path rtok)
    drop_destination_first
  match apply_indexes r1.1 t t.destination_path with
  | Except.error e => (Except.error e, r1.1, r1.2)
  | Except.ok r2 =>
    let r3 := create_table r2.1 t.temp_table_path (t.table_ddl t.temp_table_path rtok) false
    match apply_indexes r3.1 t t.temp_table_path with
    | Except.error e => (Except.error e, r3.1, r1.2 ++ r2.2 ++ r3.2)
    | Except.ok r4 => (Except.error insert_sql_call_error, r4.1, r1.2 ++ r2.2 ++ r3.2 ++ r4.2)

/-- Source `MssqlDriver.write_using_modes` (driver.py lines 311-321): dispatch on the
write mode; `merge` is called without `drop_destination_first`, i.e. `False`. -/
def write_using_modes (t : Table) (rtok : String) (db : Db) :
    Except PyErr Unit × Db × List Event :=
  match t.write_mode with
  | WriteMode.APPEND => append t rtok db
  | WriteMode.TRUNCATE_WRITE => truncate_write t rtok db
  | WriteMode.MERGE => merge t false rtok db

/-! ## Spec-side definitions

Written from the words of the specification, to be compared with the definitions
embedded from the source. -/

/-- Modelled from the spec (§4.2): the merge match condition is "equality over
every unique column AND `staging.modified_column >= destination.modified_column`",
rendered with the `source` and `target` aliases of the driver. -/
def spec_match_condition (t : Table) : String :=
  String.intercalate " AND "
      (t.unique_columns.map (fun col => "target." ++ col.name ++ " = source." ++ col.name)) ++
    " AND source." ++ t.destination_data_modified_column_name ++
    " >= target." ++ t.destination_data_modified_column_name

/-! ## Helper lemmas -/

/-- Every `create_table` call emits its table-existence check first. -/
theorem create_table_events_head (db : Db) (p : Path) (ddl : String) (b : Bool) :
    ∃ tl, (create_table db p ddl b).2 = Event.tableCheck p :: tl := by
  unfold create_table
  split
  · split
    · exact ⟨[], rfl⟩
    · exact ⟨_, rfl⟩
  · exact ⟨_, rfl⟩

/-- With an empty index list, `apply_indexes` is a no-op success. -/
theorem apply_indexes_nil (db : Db) (t : Table) (p : Path) (h : t.indexes = []) :
    apply_indexes db t p = Except.ok (db, []) := by
  unfold apply_indexes
  rw [h]

/-- On an index-free table, `merge` runs both create steps, then fails with the
`insert_sql` TypeError; its trace is the two create traces concatenated. -/
theorem merge_trace_nil_indexes (t : Table) (dd : Bool) (rtok : String) (db : Db)
    (h : t.indexes = []) :
    merge t dd rtok db =
      (Except.error insert_sql_call_error,
        (create_table
          (create_table db t.destination_path (t.table_ddl t.destination_path rtok) dd).1
          t.temp_table_path (t.table_ddl t.temp_table_path rtok) false).1,
        (create_table db t.destination_path (t.table_ddl t.destination_path rtok) dd).2 ++ [] ++
          (create_table
            (create_table db t.destination_path (t.table_ddl t.destination_path rtok) dd).1
            t.temp_table_path (t.table_ddl t.temp_table_path rtok) false).2 ++ []) := by
  simp only [merge, apply_indexes_nil _ _ _ h]

/-! ## Claim theorems -/

/-- C7: for every Table, the materialized column list equals the concatenation
of the default, unique and non-unique column groups in that order, its length
is the sum of the three group sizes, and `insert_sql` emits exactly those
column names in that order with exactly one `?` placeholder per materialized
column, targeting the destination path. -/
theorem materialized_columns_and_insert_sql (cfg : TableConfig) (ctok : String) :
    (mkTable cfg ctok)._columns =
      cfg.default_columns ++ cfg.unique_columns ++ cfg.non_unique_columns ∧
    (mkTable cfg ctok)._columns.length =
      cfg.default_columns.length + cfg.unique_columns.length + cfg.non_unique_columns.length ∧
    (mkTable cfg ctok).insert_sql =
      "INSERT INTO " ++ cfg.destination_path.to_str ++ " (" ++
        String.intercalate ", "
          ((cfg.default_columns ++ cfg.unique_columns ++ cfg.non_unique_columns).map
            Column.name) ++
        ") VALUES (" ++
        String.intercalate ", "
          (List.replicate
            (cfg.default_columns ++ cfg.unique_columns ++ cfg.non_unique_columns).length "?") ++
        ");" := by
  refine ⟨?_, ?_, ?_⟩
  · simp [mkTable, create_column_list, List.append_assoc]
  · simp [mkTable, create_column_list, List.length_append, Nat.add_assoc]
  · simp [Table.insert_sql, mkTable, create_column_list, Path.to_str, List.append_assoc]

/-- C1: for every Table with at least one unique column and at least one
updatable column, `merge_ddl` succeeds and produces the merge statement whose
match condition is exactly the one of the spec (conjunction of equality over every
unique column and the guard `source.modified >= target.modified`, so equal
timestamps match as an update); the matched-branch UPDATE sets exactly the
default and non-unique columns (as a multiset of names), and the not-matched
branch inserts the full materialized column list. -/
theorem merge_ddl_matches_spec (t : Table)
    (hu : t.unique_columns.isEmpty = false)
    (hupd : (merge_update_columns t).isEmpty = false) :
    merge_ddl t =
      Except.ok (merge_statement t.destination_path.to_str t.temp_table_path.to_str
        (spec_match_condition t) (merge_update_clause t)
        (merge_insert_columns t) (merge_insert_values t)) ∧
    spec_match_condition t = merge_on_conditions t ∧
    ((merge_update_columns t).map Column.name).Perm
      ((t.default_columns ++ t.non_unique_columns).map Column.name) ∧
    merge_insert_columns t = String.intercalate ", " (t._columns.map Column.name) := by
  refine ⟨?_, rfl, List.Perm.map _ List.perm_append_comm, rfl⟩
  simp [merge_ddl, hu, hupd]
  rfl

/-- The concrete Table used as the C1 witness. -/
def c1table : Table :=
  mkTable
    { source_path := ⟨"srcdb", "srcsch", "srctbl"⟩
      destination_path := ⟨"db", "sch", "tbl"⟩
      write_mode := WriteMode.MERGE
      unique_columns := [{ name := "id", data_type := "INT" }]
      non_unique_columns := [{ name := "name", data_type := "VARCHAR(50)" }] }
    "241001120000"

/-- C1 witness: the hypotheses hold and the theorem applies at `c1table`. -/
theorem merge_ddl_matches_spec_witness :
    c1table.unique_columns.isEmpty = false ∧
    (merge_update_columns c1table).isEmpty = false ∧
    merge_ddl c1table =
      Except.ok (merge_statement c1table.destination_path.to_str
        c1table.temp_table_path.to_str (spec_match_condition c1table)
        (merge_update_clause c1table) (merge_insert_columns c1table)
        (merge_insert_values c1table)) :=
  ⟨by decide, by decide, (merge_ddl_matches_spec c1table (by decide) (by decide)).1⟩

/-- The trace of `truncate_write` begins with the full trace of its
drop-first `create_table` call on the destination. -/
theorem truncate_write_trace (t : Table) (rtok : String) (db : Db) :
    ∃ rest, (truncate_write t rtok db).2.2 =
      (create_table db t.destination_path (t.table_ddl t.destination_path rtok) true).2 ++
        rest := by
  cases hI : t.indexes with
  | nil => exact ⟨[], by simp [truncate_write, apply_indexes_nil _ _ _ hI]⟩
  | cons i is => exact ⟨[], by simp [truncate_write, apply_indexes, hI]⟩

/-- C6: create-table is idempotent under APPEND and MERGE — called without the
drop-first flag on an already-existing destination table it returns after the
existence check, issuing zero CREATE statements and no DROP and leaving the
engine state untouched — whereas TRUNCATE_WRITE (whose create step passes
`drop_first=True`) drops the existing destination table and recreates it: its
trace shows the `DROP TABLE` immediately after the existence check and
contains the execution of the destination CREATE ddl. -/
theorem create_table_idempotent_truncate_drops (t : Table) (db : Db) (ddl : String)
    (rtok : String) (h : t.destination_path ∈ db.tables) :
    create_table db t.destination_path ddl false =
      (db, [Event.tableCheck t.destination_path]) ∧
    (∃ tl, (truncate_write t rtok db).2.2 =
        Event.tableCheck t.destination_path ::
          Event.exec ("DROP TABLE " ++ t.destination_path.to_str ++ ";") :: tl) ∧
    Event.exec (t.table_ddl t.destination_path rtok) ∈ (truncate_write t rtok db).2.2 := by
  have hdrop : (create_table db t.destination_path (t.table_ddl t.destination_path rtok)
      true).2 =
      Event.tableCheck t.destination_path ::
        Event.exec ("DROP TABLE " ++ t.destination_path.to_str ++ ";") ::
        ((_create_schema { db with tables := db.tables.erase t.destination_path }
            t.destination_path).2 ++
          [Event.exec (t.table_ddl t.destination_path rtok)]) := by
    simp [create_table, _table_exists, h]
  obtain ⟨rest, hr⟩ := truncate_write_trace t rtok db
  refine ⟨by simp [create_table, _table_exists, h], ?_, ?_⟩
  · rw [hr, hdrop]
    exact ⟨_, rfl⟩
  · rw [hr, hdrop]
    simp

/-- The concrete Table and engine state used as the C6 witness. -/
def c6table : Table :=
  mkTable
    { source_path := ⟨"srcdb", "srcsch", "srctbl"⟩
      destination_path := ⟨"db", "sch", "tbl6"⟩
      write_mode := WriteMode.MERGE
      unique_columns := [{ name := "id", data_type := "INT" }]
      non_unique_columns := [{ name := "name", data_type := "VARCHAR(50)" }] }
    "241001120000"

/-- An engine state in which the destination of `c6table` already exists. -/
def c6db : Db := { schemas := [("db", "sch")], tables := [⟨"db", "sch", "tbl6"⟩] }

/-- C6 witness: the hypothesis holds and the theorem applies at `c6table`/`c6db`. -/
theorem create_table_idempotent_truncate_drops_witness :
    c6table.destination_path ∈ c6db.tables ∧
    create_table c6db c6table.destination_path "CREATE TABLE db.sch.tbl6 (id INT);" false =
      (c6db, [Event.tableCheck c6table.destination_path]) ∧
    Event.exec (c6table.table_ddl c6table.destination_path "991231235959") ∈
      (truncate_write c6table "991231235959" c6db).2.2 :=
  ⟨by decide,
    (create_table_idempotent_truncate_drops c6table c6db
      "CREATE TABLE db.sch.tbl6 (id INT);" "991231235959" (by decide)).1,
    (create_table_idempotent_truncate_drops c6table c6db
      "CREATE TABLE db.sch.tbl6 (id INT);" "991231235959" (by decide)).2.2⟩

/-- The concrete Table used for the C5 counterexample and witness: primary-key
enforcement on, one unique column. -/
def c5table : Table :=
  mkTable
    { source_path := ⟨"srcdb", "srcsch", "srctbl"⟩
      destination_path := ⟨"db", "sch", "tbl5"⟩
      enforce_primary_key := true
      write_mode := WriteMode.MERGE
      unique_columns := [{ name := "id", data_type := "INT" }]
      non_unique_columns := [{ name := "name", data_type := "VARCHAR(50)" }] }
    "240101000000"

/-- A primary-key-free variant for the deterministic half of the C5 witness. -/
def c5table_nopk : Table :=
  mkTable
    { source_path := ⟨"srcdb", "srcsch", "srctbl"⟩
      destination_path := ⟨"db", "sch", "tbl5b"⟩
      enforce_primary_key := false
      unique_columns := [{ name := "id", data_type := "INT" }]
      non_unique_columns := [{ name := "name", data_type := "VARCHAR(50)" }] }
    "240101000000"

/-- C5 counterexample: one Table, built once (construction token
"240101000000"), rendered twice with primary-key enforcement on: the two
`table_ddl` invocations read the wall clock again and produce different text,
so `table_ddl` is not deterministic for identical configuration and
construction token. -/
theorem table_ddl_nondeterministic_cex :
    c5table.table_ddl c5table.destination_path "240102000000" ≠
      c5table.table_ddl c5table.destination_path "240103000000" := by
  decide

/-- C5 amended: `table_ddl` output is deterministic for identical configuration
and uniqueness token only when primary-key enforcement is off (the render-time
clock is then unused); when it is on, the primary-key constraint name is the
concatenation of the unique column names plus the timestamp recomputed at each
rendering — `PK_<names>_<render-time now()>` — not the construction-time token. -/
theorem table_ddl_deterministic_iff_no_pk (t : Table) (p : Path) (tok1 tok2 : String) :
    (t.enforce_primary_key = false →
      t.table_ddl p tok1 = t.table_ddl p tok2) ∧
    (t.enforce_primary_key = true →
      t.table_ddl p tok1 =
        String.intercalate "\n"
          (["CREATE TABLE " ++ p.to_str ++ " ("] ++
            [String.intercalate ",\n"
              (t._columns.map Column.column_definition ++
                ["CONSTRAINT PK_" ++
                  String.intercalate "_" (t.unique_columns.map Column.name) ++ "_" ++ tok1 ++
                  " PRIMARY KEY (" ++
                  String.intercalate ", " (t.unique_columns.map Column.name) ++ ")"] ++
                [String.intercalate "\n" (t.indexes.map (fun index => index.to_sql p))])] ++
            [");"])) := by
  constructor
  · intro h
    simp [Table.table_ddl, h]
  · intro h
    simp [Table.table_ddl, h]

/-- C5 witness: both halves of the amended claim applied at concrete Tables,
discharging each hypothesis. -/
theorem table_ddl_deterministic_iff_no_pk_witness :
    c5table_nopk.table_ddl c5table_nopk.destination_path "111111111111" =
      c5table_nopk.table_ddl c5table_nopk.destination_path "222222222222" ∧
    c5table.table_ddl c5table.destination_path "240102000000" =
      String.intercalate "\n"
        (["CREATE TABLE " ++ c5table.destination_path.to_str ++ " ("] ++
          [String.intercalate ",\n"
            (c5table._columns.map Column.column_definition ++
              ["CONSTRAINT PK_" ++
                String.intercalate "_" (c5table.unique_columns.map Column.name) ++
                "_" ++ "240102000000" ++ " PRIMARY KEY (" ++
                String.intercalate ", " (c5table.unique_columns.map Column.name) ++ ")"] ++
              [String.intercalate "\n"
                (c5table.indexes.map (fun index => index.to_sql c5table.destination_path))])] ++
          [");"]) :=
  ⟨(table_ddl_deterministic_iff_no_pk c5table_nopk c5table_nopk.destination_path
      "111111111111" "222222222222").1 rfl,
    (table_ddl_deterministic_iff_no_pk c5table c5table.destination_path
      "240102000000" "0").2 rfl⟩

/-- C9: for every Table configuration and construction-time token, the staging
path is computed at construction — database and table name derived from the
destination path, schema from `temp_table_schema`, table name suffixed with
the construction-time uniqueness token — and it is this stored field, not a
per-operation recomputation, that the merge orchestration targets: whatever
the render-time clock `rtok` of the run, the staging create step checks and
creates exactly `temp_table_path`. -/
theorem temp_table_path_construction_stable (cfg : TableConfig) (ctok : String) :
    (mkTable cfg ctok).temp_table_path =
      { database := cfg.destination_path.database
        schema := cfg.temp_table_schema
        table := cfg.destination_path.table ++ "_" ++ ctok } ∧
    (cfg.indexes = [] → ∀ dd rtok db,
      Event.tableCheck (mkTable cfg ctok).temp_table_path ∈
        (merge (mkTable cfg ctok) dd rtok db).2.2) := by
  refine ⟨rfl, ?_⟩
  intro h dd rtok db
  rw [merge_trace_nil_indexes _ _ _ _ (show (mkTable cfg ctok).indexes = [] from h)]
  obtain ⟨tl, htl⟩ := create_table_events_head
    (create_table db (mkTable cfg ctok).destination_path
      ((mkTable cfg ctok).table_ddl (mkTable cfg ctok).destination_path rtok) dd).1
    (mkTable cfg ctok).temp_table_path
    ((mkTable cfg ctok).table_ddl (mkTable cfg ctok).temp_table_path rtok) false
  simp [htl, List.mem_append]

/-- The concrete configuration used as the C9 witness. -/
def c9cfg : TableConfig :=
  { source_path := ⟨"srcdb", "srcsch", "srctbl"⟩
    destination_path := ⟨"db", "sch", "tbl9"⟩
    write_mode := WriteMode.MERGE
    unique_columns := [{ name := "id", data_type := "INT" }]
    non_unique_columns := [{ name := "name", data_type := "VARCHAR(50)" }] }

/-- C9 witness: the theorem applied at `c9cfg`, hypotheses discharged. -/
theorem temp_table_path_construction_stable_witness :
    (mkTable c9cfg "241001120000").temp_table_path =
      { database := "db", schema := "INTERNAL", table := "tbl9_241001120000" } ∧
    Event.tableCheck (mkTable c9cfg "241001120000").temp_table_path ∈
      (merge (mkTable c9cfg "241001120000") false "999999999999" emptyDb).2.2 :=
  ⟨(temp_table_path_construction_stable c9cfg "241001120000").1,
    (temp_table_path_construction_stable c9cfg "241001120000").2 rfl false
      "999999999999" emptyDb⟩

/-- The trace of a `merge` run is never empty: the destination existence check
is emitted before anything can fail. -/
theorem merge_trace_ne_nil (t : Table) (dd : Bool) (rtok : String) (db : Db) :
    (merge t dd rtok db).2.2 ≠ [] := by
  obtain ⟨tl1, h1⟩ := create_table_events_head db t.destination_path
    (t.table_ddl t.destination_path rtok) dd
  unfold merge
  cases hA : apply_indexes
      (create_table db t.destination_path (t.table_ddl t.destination_path rtok) dd).1
      t t.destination_path with
  | error e => simp [hA, h1]
  | ok r2 =>
    cases hB : apply_indexes
        (create_table r2.1 t.temp_table_path (t.table_ddl t.temp_table_path rtok) false).1
        t t.temp_table_path with
    | error e => simp [hA, hB, h1]
    | ok r4 => simp [hA, hB, h1]

/-- The concrete MERGE-mode Table used as the C2 failing input: one unique
column, one non-unique column, no indexes. -/
def c2table : Table :=
  mkTable
    { source_path := ⟨"srcdb", "srcsch", "srctbl"⟩
      destination_path := ⟨"db", "sch", "tbl2"⟩
      write_mode := WriteMode.MERGE
      unique_columns := [{ name := "id", data_type := "INT" }]
      non_unique_columns := [{ name := "name", data_type := "VARCHAR(50)" }] }
    "241001120000"

/-- C2: evaluation of the orchestration at the failing input.  The MERGE run
executes steps (1) and (2) — it creates the destination and the staging table
— and then raises a `TypeError` while building the staging-write call
(`table.insert_sql(path=...)` passes a keyword `Table.insert_sql` does not
accept), so step (3) streams no rows (no write event is ever emitted), the
merge statement of step (4) never executes, and the staging table of step (5)
is never dropped. -/
theorem merge_crashes_before_merge_step :
    (merge c2table false "241001120000" emptyDb).1 =
      Except.error (PyErr.typeError
        "Table.insert_sql() got an unexpected keyword argument \x27path\x27") ∧
    Event.exec (c2table.table_ddl c2table.destination_path "241001120000") ∈
      (merge c2table false "241001120000" emptyDb).2.2 ∧
    Event.exec (c2table.table_ddl c2table.temp_table_path "241001120000") ∈
      (merge c2table false "241001120000" emptyDb).2.2 ∧
    (merge c2table false "241001120000" emptyDb).2.2.filter Event.is_write = [] ∧
    Event.exec ("DROP TABLE " ++ c2table.temp_table_path.to_str ++ ";") ∉
      (merge c2table false "241001120000" emptyDb).2.2 := by
  decide

/-- The concrete MERGE-mode Table with an empty unique-column set used for the
C3 counterexample. -/
def c3table : Table :=
  mkTable
    { source_path := ⟨"srcdb", "srcsch", "srctbl"⟩
      destination_path := ⟨"db", "sch", "tbl3"⟩
      write_mode := WriteMode.MERGE
      unique_columns := []
      non_unique_columns := [{ name := "name", data_type := "VARCHAR(50)" }] }
    "241001130000"

/-- C3 counterexample: a MERGE run on a Table whose unique-column set is empty
does *not* fail with a configuration error before any I/O: it first creates
the destination table (an executed CREATE is in its trace) and then fails with
the staging-write `TypeError` — the configuration `ValueError` inside
`merge_ddl` is never even reached. -/
theorem merge_validation_not_before_io_cex :
    (merge c3table false "241001130000" emptyDb).1 =
      Except.error (PyErr.typeError
        "Table.insert_sql() got an unexpected keyword argument \x27path\x27") ∧
    Event.exec (c3table.table_ddl c3table.destination_path "241001130000") ∈
      (merge c3table false "241001130000" emptyDb).2.2 ∧
    merge_ddl c3table =
      Except.error (PyErr.valueError "Unique columns and update columns cannot be empty.") := by
  decide

/-- C3 amended: the empty-column check exists, but in `merge_ddl`, not before
I/O: for every Table with an empty unique-column set or an empty updatable
set, `merge_ddl` raises the configuration `ValueError`, while a MERGE run on
any Table performs I/O (its event trace is nonempty) before any failure. -/
theorem merge_ddl_rejects_empty_columns (t : Table)
    (h : t.unique_columns.isEmpty = true ∨ (merge_update_columns t).isEmpty = true) :
    merge_ddl t =
      Except.error (PyErr.valueError "Unique columns and update columns cannot be empty.") ∧
    ∀ dd rtok db, (merge t dd rtok db).2.2 ≠ [] := by
  constructor
  · unfold merge_ddl
    rcases h with h | h <;> simp [h]
  · intro dd rtok db
    exact merge_trace_ne_nil t dd rtok db

/-- C3 witness: the hypothesis holds at `c3table` and the amended theorem
applies there. -/
theorem merge_ddl_rejects_empty_columns_witness :
    (c3table.unique_columns.isEmpty = true ∨ (merge_update_columns c3table).isEmpty = true) ∧
    merge_ddl c3table =
      Except.error (PyErr.valueError "Unique columns and update columns cannot be empty.") ∧
    (merge c3table true "991231235959" emptyDb).2.2 ≠ [] :=
  ⟨Or.inl (by decide),
    (merge_ddl_rejects_empty_columns c3table (Or.inl (by decide))).1,
    (merge_ddl_rejects_empty_columns c3table (Or.inl (by decide))).2 true
      "991231235959" emptyDb⟩

/-- The concrete Table used for C4: destination path built from the
scenario-C segments of the spec (one segment carries the invalid character `!`), and the
column name `x` duplicated across the unique and non-unique groups. -/
def c4table : Table :=
  mkTable
    { source_path := ⟨"db", "sch", "src4"⟩
      destination_path := ⟨"db", "sch", "tbl!"⟩
      unique_columns := [{ name := "x", data_type := "INT" }]
      non_unique_columns := [{ name := "x", data_type := "INT" }] }
    "241001120000"

/-- C4 counterexample: `Path("db","sch","tbl!")` constructs successfully — no
ConfigurationError is raised anywhere (the `path_is_valid` helper would
classify it invalid, but nothing calls it) — and the invalid segment flows
untouched into generated SQL; likewise a Table with the column name `x`
duplicated across groups constructs successfully (no SchemaConflictError
exists in the code), the duplicate surviving into the materialized list. -/
theorem construction_accepts_invalid_input_cex :
    (Path.mk "db" "sch" "tbl!").to_str = "db.sch.tbl!" ∧
    path_is_valid "db.sch.tbl!" = false ∧
    c4table.destination_path = Path.mk "db" "sch" "tbl!" ∧
    c4table.insert_sql = "INSERT INTO db.sch.tbl! (x, x) VALUES (?, ?);" ∧
    c4table._columns.count { name := "x", data_type := "INT" } = 2 := by
  decide

/-- C4 amended: construction performs no validation: any three strings form a
Path, which renders as `database.schema.table` whatever its segments contain,
and a Table whose unique and non-unique groups share a column constructs
successfully with that column occurring at least twice in the materialized
list. -/
theorem construction_performs_no_validation (d s tb : String) (cfg : TableConfig)
    (ctok : String) (c : Column)
    (h1 : c ∈ cfg.unique_columns) (h2 : c ∈ cfg.non_unique_columns) :
    (Path.mk d s tb).to_str = d ++ "." ++ s ++ "." ++ tb ∧
    2 ≤ (mkTable cfg ctok)._columns.count c := by
  refine ⟨rfl, ?_⟩
  have hcols : (mkTable cfg ctok)._columns =
      cfg.default_columns ++ (cfg.unique_columns ++ cfg.non_unique_columns) := rfl
  rw [hcols, List.count_append, List.count_append]
  have hc1 : 0 < cfg.unique_columns.count c := List.count_pos_iff.mpr h1
  have hc2 : 0 < cfg.non_unique_columns.count c := List.count_pos_iff.mpr h2
  omega

/-- C4 witness: the amended theorem applied at the concrete duplicated column,
hypotheses discharged. -/
theorem construction_performs_no_validation_witness :
    (Path.mk "db" "sch" "tbl!").to_str = "db" ++ "." ++ "sch" ++ "." ++ "tbl!" ∧
    2 ≤ c4table._columns.count { name := "x", data_type := "INT" } :=
  construction_performs_no_validation "db" "sch" "tbl!"
    { source_path := ⟨"db", "sch", "src4"⟩
      destination_path := ⟨"db", "sch", "tbl!"⟩
      unique_columns := [{ name := "x", data_type := "INT" }]
      non_unique_columns := [{ name := "x", data_type := "INT" }] }
    "241001120000" { name := "x", data_type := "INT" } (by decide) (by decide)

/-- The concrete Index (mssql variant) used as the C8 failing input; its
declared name is `my_declared_name`, its single column is `a`. -/
def c8index : Index :=
  { name := "my_declared_name"
    index_type := SqlServerIndexType.NONCLUSTERED
    columns := [{ name := "a", data_type := "INT" }] }

/-- The same Index in the models/types_.py variant. -/
def c8index_models : Models.Index :=
  { name := "my_declared_name"
    index_type := SqlServerIndexType.NONCLUSTERED
    columns := [{ name := "a", data_type := "INT" }] }

/-- C8: evaluation at the failing input.  In the mssql variant the derived
index name is `a` (from the column names, not the declared
`my_declared_name`), as the claim says — but the rendered `ON` target is the
Python repr of the uncalled bound method `path.to_str`, not the
`database.schema.table` text of the path.  The parallel models/types_.py variant (which
takes the path as a plain string) renders the target correctly, showing the
intended shape. -/
theorem index_to_sql_renders_bound_method :
    Index.to_sql c8index ⟨"db", "sch", "tbl"⟩ =
      "CREATE NONCLUSTERED INDEX a ON <bound method Path.to_str of Path(database=\x27db\x27, schema=\x27sch\x27, table=\x27tbl\x27)> (a ASC);" ∧
    Models.Index.to_sql c8index_models "db.sch.tbl" =
      "CREATE NONCLUSTERED INDEX a ON db.sch.tbl (a ASC);" := by
  decide

/-- The concrete MERGE-mode Table used for C10. -/
def c10table : Table :=
  mkTable
    { source_path := ⟨"srcdb", "srcsch", "srctbl"⟩
      destination_path := ⟨"db", "sch", "tbl10"⟩
      write_mode := WriteMode.MERGE
      unique_columns := [{ name := "id", data_type := "INT" }]
      non_unique_columns := [{ name := "name", data_type := "VARCHAR(50)" }] }
    "241001140000"

/-- C10 counterexample: `insert_sql` does name the destination path as its
INSERT target — but the MERGE orchestration uses *no* INSERT at all: because
the orchestration passes a `path` keyword that `Table.insert_sql` does not
accept, the run raises a TypeError and its trace contains no write event, so
no INSERT statement targets anything. -/
theorem merge_uses_no_insert_cex :
    c10table.insert_sql = "INSERT INTO db.sch.tbl10 (id, name) VALUES (?, ?);" ∧
    (merge c10table false "241001150000" emptyDb).2.2.filter Event.is_write = [] ∧
    (merge c10table false "241001150000" emptyDb).1 =
      Except.error (PyErr.typeError
        "Table.insert_sql() got an unexpected keyword argument \x27path\x27") := by
  decide

/-- C10 amended: for every Table, `insert_sql` (which takes no target-path
parameter) names the destination path as its INSERT target; consequently the
MERGE orchestration attempt to build the staging INSERT — passing a `path`
keyword the method does not accept — fails with a TypeError at the
staging-write step (shown here for index-free tables, where no earlier
AttributeError intervenes), and no row is ever streamed into staging. -/
theorem insert_sql_targets_destination_merge_write_fails (t : Table) :
    (∃ rest, t.insert_sql = "INSERT INTO " ++ t.destination_path.to_str ++ " (" ++ rest) ∧
    (t.indexes = [] → ∀ dd rtok db,
      (merge t dd rtok db).1 =
        Except.error (PyErr.typeError
          "Table.insert_sql() got an unexpected keyword argument \x27path\x27")) := by
  constructor
  · exact ⟨String.intercalate ", " (t._columns.map Column.name) ++ ") VALUES (" ++
      String.intercalate ", " (List.replicate t._columns.length "?") ++ ");",
      by simp [Table.insert_sql, String.append_assoc]⟩
  · intro h dd rtok db
    rw [merge_trace_nil_indexes t dd rtok db h]
    rfl

/-- C10 witness: the amended theorem applied at `c10table`, hypotheses
discharged. -/
theorem insert_sql_targets_destination_merge_write_fails_witness :
    (∃ rest, c10table.insert_sql =
      "INSERT INTO " ++ c10table.destination_path.to_str ++ " (" ++ rest) ∧
    (merge c10table false "991231235959" emptyDb).1 =
      Except.error (PyErr.typeError
        "Table.insert_sql() got an unexpected keyword argument \x27path\x27") :=
  ⟨(insert_sql_targets_destination_merge_write_fails c10table).1,
    (insert_sql_targets_destination_merge_write_fails c10table).2 rfl false
      "991231235959" emptyDb⟩

end Aftonfalk
